import Mathlib

/-!
Verification of the `espasyncota` component (EspAsyncOta, `src/espasyncota.{h,cpp}`).

The development shallowly embeds the controller/worker coordination layer:

* `Flags` mirrors the nine event-group bits declared in `espasyncota.cpp`
  (`TASK_RUNNING_BIT` .. `ABORT_REQUEST_BIT`).
* the controller operations `status`, `trigger`, `abort`, `setTotalSize` and
  `update` are embedded as pure functions over an explicit `Ota` state record;
  external collaborators (task creation, URL verification, the transfer
  engine, the millisecond clock) are supplied as explicit parameters.
* the worker task `EspAsyncOta::otaTask` is embedded twice, from the same
  source text: once as a sequential per-job function `runJob` (used for the
  per-job outcome claims), and once as a fine-grained interleaved transition
  system `Step` in which every event-group operation is one atomic step
  (used for the reachable-state invariant claims).

Machine integers: `m_progress`, `m_totalSize` and engine sizes are C `int`s
that the code only ever stores and compares; no arithmetic that could overflow
is performed on them, so they are embedded as `Int`.  Timestamps are
milliseconds of `espchrono::millis_clock`, embedded as `Nat`.
-/

namespace EspAsyncOta

/-- The nine event-group bits of `espasyncota.cpp` (lines 28-36), one Boolean
per bit.  `BIT0` .. `BIT8` are independent, so a record of `Bool`s is a
faithful image of the bit mask. -/
structure Flags where
  taskRunning : Bool
  startRequest : Bool
  requestRunning : Bool
  requestVerifying : Bool
  requestFinished : Bool
  requestSucceeded : Bool
  endTaskBit : Bool
  taskEnded : Bool
  abortRequest : Bool
  deriving DecidableEq, Repr

/-- All bits clear, the mask `startTask` resets to (line 68). -/
def Flags.allClear : Flags :=
  ⟨false, false, false, false, false, false, false, false, false⟩

instance : Fintype Flags :=
  Fintype.ofEquiv (Bool × Bool × Bool × Bool × Bool × Bool × Bool × Bool × Bool)
    { toFun := fun x =>
        ⟨x.1, x.2.1, x.2.2.1, x.2.2.2.1, x.2.2.2.2.1, x.2.2.2.2.2.1,
          x.2.2.2.2.2.2.1, x.2.2.2.2.2.2.2.1, x.2.2.2.2.2.2.2.2⟩
      invFun := fun f =>
        (f.taskRunning, f.startRequest, f.requestRunning, f.requestVerifying,
          f.requestFinished, f.requestSucceeded, f.endTaskBit, f.taskEnded,
          f.abortRequest)
      left_inv := fun _ => rfl
      right_inv := fun _ => rfl }

/-- Decidable equality for `Except` results, used to evaluate the embedded
operations on concrete inputs. -/
instance {e a : Type} [DecidableEq e] [DecidableEq a] : DecidableEq (Except e a)
  | .error x, .error y =>
      if h : x = y then .isTrue (by rw [h]) else .isFalse (by simpa using h)
  | .error _, .ok _ => .isFalse nofun
  | .ok _, .error _ => .isFalse nofun
  | .ok x, .ok y =>
      if h : x = y then .isTrue (by rw [h]) else .isFalse (by simpa using h)

/-- The `OtaCloudUpdateStatus` enum of `espasyncota.h` (lines 17-24). -/
inductive UpdateStatus where
  | Idle
  | Updating
  | Failed
  | Succeeded
  | NotReady
  | Verifying
  deriving DecidableEq, Repr, Fintype

/-- Embedding of `EspAsyncOta::status()` (espasyncota.cpp lines 134-157): the else-if
ladder over one `getBits()` snapshot. -/
def statusF (bits : Flags) : UpdateStatus :=
  if !bits.taskRunning then .Idle
  else if bits.requestVerifying then .Verifying
  else if bits.startRequest || bits.requestRunning then .Updating
  else if bits.requestFinished then
    if bits.requestSucceeded then .Succeeded else .Failed
  else .Idle

/-- Modelled from the claim text of C3 (read as the listed priority of
cases): Idle when the worker task is not running or no job-state bit is set,
then Verifying, then Updating, then the finished outcome disambiguated by
the success flag. -/
def statusSpec (bits : Flags) : UpdateStatus :=
  if !bits.taskRunning
      || !(bits.startRequest || bits.requestRunning || bits.requestVerifying
            || bits.requestFinished || bits.requestSucceeded) then .Idle
  else if bits.requestVerifying then .Verifying
  else if bits.startRequest || bits.requestRunning then .Updating
  else if bits.requestFinished then
    if bits.requestSucceeded then .Succeeded else .Failed
  else .Idle

/-- Embedding of `EspAsyncOta::abort()` (espasyncota.cpp lines 195-206): one `getBits()`
snapshot, two guard checks, then `setBits(ABORT_REQUEST_BIT)`. -/
def abortF (bits : Flags) : Except String Flags :=
  if !(bits.startRequest || bits.requestRunning) then
    .error "no ota job is running!"
  else if bits.abortRequest then
    .error "an abort has already been requested!"
  else
    .ok { bits with abortRequest := true }

/-- Program counter of the worker task `EspAsyncOta::otaTask` (espasyncota.cpp
lines 280-468).  One constructor per position between two event-group
operations; the Booleans carry the job-local variables `ota_perform_err ==
ESP_OK`, `aborted` and `ota_finish_err == ESP_OK` where they are live. -/
inductive WorkerPc where
  | notStarted
  /-- parked on `waitBits(START_REQUEST_BIT, clearOnExit, ...)` (line 293). -/
  | parked
  /-- The `waitBits` call returned and cleared `START_REQUEST_BIT`; the asserts of
  lines 299-305 have not run yet. -/
  | woken
  /-- the asserts of lines 299-305 passed; `m_progress = 0` (line 307) is
  next. -/
  | preReset
  /-- progress cleared; `setBits(REQUEST_RUNNING_BIT)` (line 309) is next. -/
  | preRun
  /-- Bit `REQUEST_RUNNING_BIT` set; `esp_https_ota_begin` (line 352) is next. -/
  | beginPh
  /-- begin succeeded with a valid handle; `esp_https_ota_get_img_desc`
  (line 373) is next. -/
  | describePh
  /-- Call `esp_https_ota_get_image_size` (line 383) is next. -/
  | sizePh
  /-- inside the `esp_https_ota_perform` loop (lines 394-415). -/
  | chunkPh
  /-- the loop exited; line 419 (maybe `setBits(REQUEST_VERIFYING_BIT)`) is
  next. -/
  | postPerform (performOk aborted : Bool)
  /-- Call `esp_https_ota_finish` (line 435) is next. -/
  | finishPh (performOk aborted : Bool)
  /-- the outcome message write (lines 448-462) is next. -/
  | outcomePh (performOk aborted finishOk : Bool)
  /-- line 464 (maybe `setBits(REQUEST_SUCCEEDED_BIT)`) is next. -/
  | preSucceed (performOk aborted finishOk : Bool)
  /-- the scoped cleanup `helper2` starts: `clearBits(RUNNING|VERIFYING|ABORT)`
  (line 312) is next. -/
  | preCleanup (performOk aborted finishOk : Bool)
  /-- between the cleanup's `clearBits` (line 312) and `setBits(FINISHED)`
  (line 313). -/
  | preFinishSet (succ : Bool)
  deriving DecidableEq, Repr, Fintype

/-- The controller/worker shared state: the event-group bits, the Job
Progress Snapshot fields (`m_progress`, `m_totalSize`, `m_message`,
`m_appDesc`, espasyncota.h lines 55-58), controller-owned timers and job
parameters (lines 63-70), the task handle, and the worker's position.
`m_appDesc` content is opaque to this component, embedded as `Option Nat`.
The field `abortCallArmed` is a model-only program counter for the
controller's `abort()` call: it is `true` exactly while the caller is between
the `getBits()` guard read of line 197 (which it has passed) and the
`setBits(ABORT_REQUEST_BIT)` of line 202; since the controller is a single
caller context, one `Bool` suffices. -/
structure Ota where
  flags : Flags
  progress : Int
  totalSize : Option Int
  message : String
  appDesc : Option Nat
  finishedTs : Option Nat
  lastInfo : Option Nat
  taskHandle : Bool
  url : String
  certPem : String
  useGlobalCa : Bool
  clientKey : String
  clientCert : String
  pc : WorkerPc
  abortCallArmed : Bool
  deriving DecidableEq, Repr

/-- The state of a freshly constructed `EspAsyncOta` (all members
value-initialized, no task spawned). -/
def ota0 : Ota :=
  { flags := Flags.allClear, progress := 0, totalSize := none, message := ""
    appDesc := none, finishedTs := none, lastInfo := none, taskHandle := false
    url := "", certPem := "", useGlobalCa := false, clientKey := ""
    clientCert := "", pc := .notStarted, abortCallArmed := false }

/-- Outcomes of the external collaborators consumed by `startTask` and
`trigger`: `espcpputils::createTask` and `esphttpdutils::urlverify`. -/
structure ExtEnv where
  createOk : Bool
  createErrCode : Int
  urlOk : Bool
  urlErr : String

/-- Embedding of `EspAsyncOta::startTask()` (espasyncota.cpp lines 52-99).  On the success
path the worker's first action sets `TASK_RUNNING_BIT` (line 288) and
`startTask` blocks until it observes that bit (lines 87-98), so on return the
worker is parked with the bit set; the post-create null-handle check (lines
78-83) is folded into `createOk`.  The state is returned alongside the result
because a failed `createTask` still leaves the flags cleared (line 68). -/
def startTaskF (st : Ota) (env : ExtEnv) : Ota × Except String Unit :=
  if st.taskHandle then (st, .error "ota task handle is not null")
  else if st.flags.taskRunning then (st, .error "ota task already running")
  else
    let st1 := { st with flags := Flags.allClear }
    if !env.createOk then
      (st1, .error ("failed creating ota task " ++ toString env.createErrCode))
    else
      ({ st1 with taskHandle := true
                  flags := { Flags.allClear with taskRunning := true }
                  pc := .parked }, .ok ())

/-- The lazy start at the head of `trigger` (espasyncota.cpp lines 162-166):
`startTask` runs only when `m_taskHandle` is null. -/
def lazyStartF (st : Ota) (env : ExtEnv) : Ota × Except String Unit :=
  if st.taskHandle then (st, .ok ()) else startTaskF st env

/-- The body of `trigger` after the lazy start (espasyncota.cpp lines
168-192): the `getBits()` checks, the URL checks, then storing the job
parameters and `setBits(START_REQUEST_BIT)`.  Returns `none` when the
`assert(!(bits & REQUEST_SUCCEEDED_BIT))` of line 175 fires (the program
halts there); otherwise the resulting state and the returned
`std::expected`. -/
def triggerChecksF (st1 : Ota) (env : ExtEnv) (url certPem : String)
    (useGlobalCa : Bool) (clientKey clientCert : String) :
    Option (Ota × Except String Unit) :=
  if !st1.flags.taskRunning then some (st1, .error "ota cloud task not running")
  else if st1.flags.startRequest || st1.flags.requestRunning then
    some (st1, .error "ota cloud already running")
  else if st1.flags.requestFinished then
    some (st1, .error "ota cloud not fully finished, try again")
  else if st1.flags.requestSucceeded then none
  else if url = "" then some (st1, .error "empty firmware url")
  else if !env.urlOk then
    some (st1, .error ("could not verify firmware url: " ++ env.urlErr))
  else
    some ({ st1 with url := url, certPem := certPem
                     useGlobalCa := useGlobalCa, clientKey := clientKey
                     clientCert := clientCert
                     flags := { st1.flags with startRequest := true } }, .ok ())

/-- Embedding of `EspAsyncOta::trigger(url, cert_pem, use_global_ca, client_key,
client_cert)` (espasyncota.cpp lines 159-193): the lazy start, then the
checks. -/
def triggerF (st : Ota) (env : ExtEnv) (url certPem : String)
    (useGlobalCa : Bool) (clientKey clientCert : String) :
    Option (Ota × Except String Unit) :=
  match lazyStartF st env with
  | (st1, .error e) => some (st1, .error e)
  | (st1, .ok ()) => triggerChecksF st1 env url certPem useGlobalCa clientKey clientCert

/-- The public inline setter `EspAsyncOta::setTotalSize` (espasyncota.h line
37): `m_totalSize = totalSize` engages the optional. -/
def setTotalSizeF (st : Ota) (v : Int) : Ota := { st with totalSize := some v }

/-- Result of one `update()` tick: either the successor state or the
non-returning `esp_restart()` (espasyncota.cpp line 253). -/
inductive UpdateOut where
  | cont (st : Ota)
  | restart
  deriving DecidableEq, Repr

/-- Embedding of `EspAsyncOta::update()` (espasyncota.cpp lines 208-269) at clock value
`now` (milliseconds of `espchrono::millis_clock`; `espchrono::ago t = now - t`
and the clock is monotone, so `now ≥ t` and truncated subtraction agrees).
The code clears `m_finishedTs` before calling `esp_restart()`, which never
returns, so the `restart` outcome carries no state. -/
def updateF (st : Ota) (now : Nat) : UpdateOut :=
  if st.flags.startRequest || st.flags.requestRunning then
    -- `if (!m_lastInfo || espchrono::ago(*m_lastInfo) >= 1s)`; the optional
    -- is only dereferenced when engaged, so `getD` is faithful
    if st.lastInfo.isNone || now - st.lastInfo.getD 0 ≥ 1000 then
      .cont { st with lastInfo := some now }
    else .cont st
  else if st.flags.requestFinished then
    if st.finishedTs.isSome then
      if now - st.finishedTs.getD 0 > 5000 then
        if st.flags.requestSucceeded then .restart
        else
          .cont { st with finishedTs := none
                          flags := { st.flags with requestFinished := false
                                                   requestSucceeded := false }
                          appDesc := none }
      else .cont st
    else .cont { st with finishedTs := some now }
  else .cont st

/-! ### The worker's per-job phase sequence (otaTask, lines 290-467)

`runJob` embeds one iteration of the worker loop, from the state right after
`waitBits` consumed `START_REQUEST_BIT` to the state right after the scoped
cleanup `helper2` ran.  The transfer engine's outcomes and the points at
which a concurrent `abort()` call succeeds are supplied in `JobEnv`.  A
successful `abort()` only sets `ABORT_REQUEST_BIT` (lines 195-206), and while
the job is running no other controller operation writes any flag (`trigger`
is rejected at line 170, `update` only logs at lines 219-243, `status` only
reads), so injecting the abort bit at the worker's own step boundaries covers
every controller interleaving of the sequential job. -/

/-- The failure message format of espasyncota.cpp lines 356, 451 and 456:
`std::format("{}() failed with {} (at {})", fn, esp_err_to_name(err), ms)`. -/
def failedMsg (fn errName : String) (ms : Nat) : String :=
  fn ++ "() failed with " ++ errName ++ " (at " ++ toString ms ++ ")"

/-- The message of espasyncota.cpp line 365:
`std::format("ota handle invalid (at {})", ms)`. -/
def handleInvalidMsg (ms : Nat) : String :=
  "ota handle invalid (at " ++ toString ms ++ ")"

/-- The fixed abort message of espasyncota.cpp line 411. -/
def abortedMsg : String := "Requested abort"

/-- Write `m_progress = 0` (line 307). -/
def jobEntryF (st : Ota) : Ota := { st with progress := 0 }

/-- Operation `setBits(REQUEST_RUNNING_BIT)` (line 309). -/
def setRunningF (st : Ota) : Ota :=
  { st with flags := { st.flags with requestRunning := true } }

/-- Operation `setBits(REQUEST_VERIFYING_BIT)` (line 420). -/
def setVerifyingF (st : Ota) : Ota :=
  { st with flags := { st.flags with requestVerifying := true } }

/-- Operation `setBits(REQUEST_SUCCEEDED_BIT)` (line 466). -/
def setSucceededF (st : Ota) : Ota :=
  { st with flags := { st.flags with requestSucceeded := true } }

/-- Operation `clearBits(REQUEST_RUNNING_BIT | REQUEST_VERIFYING_BIT |
ABORT_REQUEST_BIT)` (line 312). -/
def cleanupClearF (st : Ota) : Ota :=
  { st with flags := { st.flags with requestRunning := false
                                     requestVerifying := false
                                     abortRequest := false } }

/-- Operation `setBits(REQUEST_FINISHED_BIT)` (line 313). -/
def setFinishedF (st : Ota) : Ota :=
  { st with flags := { st.flags with requestFinished := true } }

/-- The scoped cleanup `helper2` (lines 311-314), bumping a counter so that
"exactly once" is checkable on `runJob`'s result. -/
def cleanupC (st : Ota) (n : Nat) : Ota × Nat := (setFinishedF (cleanupClearF st), n + 1)

/-- One `ESP_ERR_HTTPS_OTA_IN_PROGRESS` iteration of the perform loop (lines
394-415): the cumulative bytes-read counter the engine reports, and whether a
concurrent `abort()` call succeeded since the previous iteration's check. -/
structure ChunkEv where
  bytesRead : Int
  abortArrives : Bool
  deriving DecidableEq, Repr

/-- Transfer-engine outcomes and abort arrivals for one job. -/
structure JobEnv where
  /-- Whether `esp_https_ota_begin` returned `ESP_OK` (line 352). -/
  beginOk : Bool
  /-- Name `esp_err_to_name` gives the failed begin. -/
  beginErr : String
  /-- clock value at the begin-failure message (line 357). -/
  beginTs : Nat
  /-- the handle delivered by a successful begin is non-null (line 362). -/
  handleValid : Bool
  /-- clock value at the invalid-handle message (line 366). -/
  handleTs : Nat
  /-- Outcome of `esp_https_ota_get_img_desc` (lines 373-378): the descriptor on
  `ESP_OK`, `none` otherwise. -/
  describeRes : Option Nat
  /-- Result of `esp_https_ota_get_image_size` (line 383). -/
  sizeRes : Int
  /-- the in-progress iterations of the perform loop. -/
  chunks : List ChunkEv
  /-- the loop's terminal `esp_https_ota_perform` returned `ESP_OK`. -/
  performOk : Bool
  /-- Name `esp_err_to_name` gives the failed perform. -/
  performErr : String
  /-- Whether `esp_https_ota_finish` returned `ESP_OK` (line 435). -/
  finishOk : Bool
  /-- Name `esp_err_to_name` gives the failed finish. -/
  finishErr : String
  /-- clock value at the outcome message (lines 451-459). -/
  failTs : Nat
  /-- a concurrent `abort()` call succeeded after the perform loop exited and
  before the cleanup ran (`REQUEST_RUNNING_BIT` is still set there, so
  `abort()` accepts; the worker never reads the bit again). -/
  abortDuringFinish : Bool

/-- The perform loop (lines 394-415).  Each in-progress iteration updates
`m_progress` from the engine's counter (line 400), then atomically
test-and-clears `ABORT_REQUEST_BIT` (line 407); if the bit was set the loop
breaks with `aborted = true`, the fixed message, and `ota_perform_err =
ESP_FAIL`.  Returns the state and `aborted`. -/
def chunkLoopF : List ChunkEv → Ota → Ota × Bool
  | [], st => (st, false)
  | ev :: rest, st =>
    let st := { st with progress := ev.bytesRead }
    let st := if ev.abortArrives then
                { st with flags := { st.flags with abortRequest := true } }
              else st
    if st.flags.abortRequest then
      ({ st with flags := { st.flags with abortRequest := false }
                 message := abortedMsg }, true)
    else chunkLoopF rest st

/-- Result of one job iteration: the final state, how many times the scoped
cleanup ran, and the job-local outcome variables. -/
structure JobOut where
  final : Ota
  cleanups : Nat
  aborted : Bool
  performOk : Bool
  finishOk : Bool
  earlyExit : Bool
  deriving Repr

/-- The state at entry to the perform loop: progress cleared (line 307),
`REQUEST_RUNNING_BIT` set (line 309), the descriptor stored or cleared
(lines 370-379), and a positive reported size stored (lines 381-387). -/
def prePerformState (st : Ota) (env : JobEnv) : Ota :=
  { setRunningF (jobEntryF st) with
      appDesc := env.describeRes
      totalSize := if env.sizeRes > 0 then some env.sizeRes else st.totalSize }

/-- One job iteration of `otaTask` (lines 290-467), starting from the state in
which `waitBits` has just consumed `START_REQUEST_BIT` and the asserts of
lines 299-305 passed. -/
def runJob (st : Ota) (env : JobEnv) : JobOut :=
  if !env.beginOk then
    let p := cleanupC { setRunningF (jobEntryF st) with
      message := failedMsg "esp_https_ota_begin" env.beginErr env.beginTs } 0
    { final := p.1, cleanups := p.2, aborted := false, performOk := false
      finishOk := false, earlyExit := true }
  else if !env.handleValid then
    let p := cleanupC { setRunningF (jobEntryF st) with
      message := handleInvalidMsg env.handleTs } 0
    { final := p.1, cleanups := p.2, aborted := false, performOk := false
      finishOk := false, earlyExit := true }
  else
    let q := chunkLoopF env.chunks (prePerformState st env)
    let st := q.1
    let aborted := q.2
    let pOk := !aborted && env.performOk
    let st := { st with flags := { st.flags with
                  requestVerifying := st.flags.requestVerifying || pOk } }
    let st := { st with flags := { st.flags with
                  abortRequest := st.flags.abortRequest || env.abortDuringFinish } }
    let fOk := env.finishOk
    let st := { st with message :=
                  if aborted then st.message
                  else if !pOk then
                    failedMsg "esp_https_ota_perform" env.performErr env.failTs
                  else if !fOk then
                    failedMsg "esp_https_ota_finish" env.finishErr env.failTs
                  else "" }
    let st := { st with flags := { st.flags with
                  requestSucceeded := st.flags.requestSucceeded || (pOk && fOk) } }
    let p := cleanupC st 0
    { final := p.1, cleanups := p.2, aborted := aborted, performOk := pOk
      finishOk := fOk, earlyExit := false }

/-! ### Interleaved transition system

Every event-group operation (`setBits`/`clearBits`/`waitBits`/`getBits`) is
atomic (FreeRTOS event groups), so the system is embedded as a step relation
in which each worker step performs at most one event-group operation; any
adjacent plain-field write (progress, message, descriptor) rides on the same
step, which is sound for flag claims because no flag depends on those fields.
Controller calls each read one `getBits()` snapshot and then act.  For
`startTask`, `trigger`, `update` and `endTask` the snapshot-guarded flag
writes set or clear bits that no worker operation able to run in the guard
window writes, so the guard and the write commute with any interposed worker
step and the call is embedded as a single atomic step.  `abort()` is the
exception: between its guard read (line 197) and its
`setBits(ABORT_REQUEST_BIT)` (line 202) the worker's scoped cleanup may run
its `clearBits` of line 312, which writes the very bit abort is about to set;
clear-then-set and set-then-clear differ, so the two operations are embedded
as two separately-atomic steps linked by the model component
`abortCallArmed`.  (The model lets other controller steps fire while
`abortCallArmed` is set; the single caller context cannot actually do that,
so this only enlarges the set of reachable states.)  A fired `assert` halts
the program, so a
state whose next instruction is a failing assert simply has no successor for
that instruction.  `esp_restart()` never returns, so the `UpdateOut.restart`
outcome likewise produces no successor.  The worker never waits on
`END_TASK_BIT` (its loop at line 293 waits only on `START_REQUEST_BIT`), so
`endTask` contributes only the `setBits(END_TASK_BIT)` step. -/

/-- One atomic step of the controller/worker system. -/
inductive Step : Ota → Ota → Prop where
  /-- worker: `waitBits(START_REQUEST_BIT, clearOnExit=true, ...)` returns
  (line 293): consumes the start request. -/
  | wake (st : Ota) (hpc : st.pc = .parked) (hs : st.flags.startRequest = true) :
      Step st { st with flags := { st.flags with startRequest := false }, pc := .woken }
  /-- worker: the asserts of lines 299-305 pass (a failing assert halts). -/
  | asserts (st : Ota) (hpc : st.pc = .woken)
      (h1 : st.flags.startRequest = false) (h2 : st.flags.requestRunning = false)
      (h3 : st.flags.requestVerifying = false) (h4 : st.flags.requestFinished = false)
      (h5 : st.flags.requestSucceeded = false) :
      Step st { st with pc := .preReset }
  /-- worker: `m_progress = 0` (line 307). -/
  | resetProgress (st : Ota) (hpc : st.pc = .preReset) :
      Step st { st with progress := 0, pc := .preRun }
  /-- worker: `setBits(REQUEST_RUNNING_BIT)` (line 309). -/
  | setRunning (st : Ota) (hpc : st.pc = .preRun) :
      Step st { st with flags := { st.flags with requestRunning := true }, pc := .beginPh }
  /-- worker: `esp_https_ota_begin` returns `ESP_OK` with a valid handle. -/
  | beginOk (st : Ota) (hpc : st.pc = .beginPh) :
      Step st { st with pc := .describePh }
  /-- worker: `esp_https_ota_begin` fails (lines 354-359): message, then
  `continue` runs the scoped cleanup. -/
  | beginFail (st : Ota) (err : String) (ts : Nat) (hpc : st.pc = .beginPh) :
      Step st { st with message := failedMsg "esp_https_ota_begin" err ts
                        pc := .preCleanup false false false }
  /-- worker: begin succeeded but the handle is null (lines 362-368). -/
  | beginNull (st : Ota) (ts : Nat) (hpc : st.pc = .beginPh) :
      Step st { st with message := handleInvalidMsg ts
                        pc := .preCleanup false false false }
  /-- worker: `esp_https_ota_get_img_desc` (lines 370-379): stores the
  descriptor on success, clears it otherwise. -/
  | describeStep (st : Ota) (res : Option Nat) (hpc : st.pc = .describePh) :
      Step st { st with appDesc := res, pc := .sizePh }
  /-- worker: `esp_https_ota_get_image_size` (lines 381-387): only a positive
  size is stored. -/
  | sizeStep (st : Ota) (v : Int) (hpc : st.pc = .sizePh) :
      Step st { st with totalSize := if v > 0 then some v else st.totalSize
                        pc := .chunkPh }
  /-- worker: one in-progress `esp_https_ota_perform` iteration whose
  test-and-clear of `ABORT_REQUEST_BIT` (line 407) finds the bit clear. -/
  | chunkSpin (st : Ota) (n : Int) (hpc : st.pc = .chunkPh)
      (hab : st.flags.abortRequest = false) :
      Step st { st with progress := n }
  /-- worker: one in-progress iteration whose test-and-clear finds the bit
  set (lines 407-414): clear it, record the abort outcome, break. -/
  | chunkAborted (st : Ota) (n : Int) (hpc : st.pc = .chunkPh)
      (hab : st.flags.abortRequest = true) :
      Step st { st with progress := n
                        flags := { st.flags with abortRequest := false }
                        message := abortedMsg
                        pc := .postPerform false true }
  /-- worker: `esp_https_ota_perform` returns a terminal status (line 397). -/
  | chunkTerminal (st : Ota) (ok : Bool) (hpc : st.pc = .chunkPh) :
      Step st { st with pc := .postPerform ok false }
  /-- worker: line 419: `setBits(REQUEST_VERIFYING_BIT)` iff the perform loop
  ended with `ESP_OK`. -/
  | verifyStep (st : Ota) (p a : Bool) (hpc : st.pc = .postPerform p a) :
      Step st { st with flags := { st.flags with
                          requestVerifying := st.flags.requestVerifying || p }
                        pc := .finishPh p a }
  /-- worker: `esp_https_ota_finish` returns (line 435). -/
  | finishStep (st : Ota) (p a f : Bool) (hpc : st.pc = .finishPh p a) :
      Step st { st with pc := .outcomePh p a f }
  /-- worker: the outcome message write (lines 448-462). -/
  | outcomeStep (st : Ota) (p a f : Bool) (perr ferr : String) (ts : Nat)
      (hpc : st.pc = .outcomePh p a f) :
      Step st { st with
        message :=
          if a then st.message
          else if !p then failedMsg "esp_https_ota_perform" perr ts
          else if !f then failedMsg "esp_https_ota_finish" ferr ts
          else ""
        pc := .preSucceed p a f }
  /-- worker: line 464: `setBits(REQUEST_SUCCEEDED_BIT)` iff perform and
  finish both returned `ESP_OK`. -/
  | succeedStep (st : Ota) (p a f : Bool) (hpc : st.pc = .preSucceed p a f) :
      Step st { st with flags := { st.flags with
                          requestSucceeded := st.flags.requestSucceeded || (p && f) }
                        pc := .preCleanup p a f }
  /-- worker: the scoped cleanup's `clearBits(RUNNING | VERIFYING | ABORT)`
  (line 312). -/
  | cleanupClearStep (st : Ota) (p a f : Bool) (hpc : st.pc = .preCleanup p a f) :
      Step st { st with flags := { st.flags with requestRunning := false
                                                 requestVerifying := false
                                                 abortRequest := false }
                        pc := .preFinishSet (p && f) }
  /-- worker: the scoped cleanup's `setBits(REQUEST_FINISHED_BIT)` (line
  313), after which the loop parks again. -/
  | cleanupSetStep (st : Ota) (s : Bool) (hpc : st.pc = .preFinishSet s) :
      Step st { st with flags := { st.flags with requestFinished := true }
                        pc := .parked }
  /-- controller: a `startTask()` call (also covers the failing calls, which
  may still clear the flags at line 68). -/
  | ctlStartTask (st st' : Ota) (env : ExtEnv) (r : Except String Unit)
      (h : startTaskF st env = (st', r)) : Step st st'
  /-- controller: a `trigger(...)` call (lines 159-193); `triggerF = none`
  means the assert of line 175 halts the program, so no step. -/
  | ctlTrigger (st st' : Ota) (env : ExtEnv) (u c : String) (g : Bool)
      (k cc : String) (r : Except String Unit)
      (h : triggerF st env u c g k cc = some (st', r)) : Step st st'
  /-- controller: `abort()`'s `getBits()` guard read (lines 197-200) passes,
  committing the call to its `setBits`; a failing guard changes nothing and
  contributes no step. -/
  | ctlAbortCheck (st : Ota)
      (h1 : (st.flags.startRequest || st.flags.requestRunning) = true)
      (h2 : st.flags.abortRequest = false)
      (h3 : st.abortCallArmed = false) :
      Step st { st with abortCallArmed := true }
  /-- controller: `abort()`'s `setBits(ABORT_REQUEST_BIT)` (line 202),
  possibly delayed arbitrarily after the guard read. -/
  | ctlAbortSet (st : Ota) (h : st.abortCallArmed = true) :
      Step st { st with flags := { st.flags with abortRequest := true }
                        abortCallArmed := false }
  /-- controller: a `setTotalSize(v)` call (espasyncota.h line 37). -/
  | ctlSetTotalSize (st : Ota) (v : Int) : Step st (setTotalSizeF st v)
  /-- controller: an `update()` tick at clock value `now`; the `restart`
  outcome never returns, so no step. -/
  | ctlUpdate (st st' : Ota) (now : Nat) (h : updateF st now = .cont st') :
      Step st st'
  /-- controller: `endTask()`'s `setBits(END_TASK_BIT)` (line 113); the
  worker never observes it, and the other `endTask` paths change nothing. -/
  | ctlEndTask (st : Ota) (h1 : st.flags.taskRunning = true)
      (h2 : st.flags.endTaskBit = false) :
      Step st { st with flags := { st.flags with endTaskBit := true } }

/-- States reachable from a freshly constructed `EspAsyncOta`. -/
inductive Reach : Ota → Prop where
  | init : Reach ota0
  | step {s s' : Ota} : Reach s → Step s s' → Reach s'

/-- The inductive invariant tying the worker's position to the flag bits,
the task handle (`h`) and the armed-abort marker (`ap`).  `x == y` on `Bool`
is equality; `!x || y` is implication.  No upper bound on `ABORT_REQUEST` is
maintained: because `abort()`'s `setBits` may land arbitrarily late, the bit
can be set at any position of a spawned worker. -/
def invB : WorkerPc → Flags → Bool → Bool → Bool
  | .notStarted, f, h, ap => f == Flags.allClear && !h && !ap
  | .parked, f, h, _ =>
      h && f.taskRunning && !f.requestRunning && !f.requestVerifying
        && (!f.requestSucceeded || f.requestFinished)
  | .woken, f, h, _ =>
      h && f.taskRunning && !f.requestRunning && !f.requestVerifying
        && (!f.requestSucceeded || f.requestFinished)
  | .preReset, f, h, _ =>
      h && f.taskRunning && !f.requestRunning && !f.requestVerifying
        && !f.requestFinished && !f.requestSucceeded
  | .preRun, f, h, _ =>
      h && f.taskRunning && !f.requestRunning && !f.requestVerifying
        && !f.requestFinished && !f.requestSucceeded
  | .beginPh, f, h, _ =>
      h && f.taskRunning && f.requestRunning && !f.requestVerifying
        && !f.requestFinished && !f.requestSucceeded
  | .describePh, f, h, _ =>
      h && f.taskRunning && f.requestRunning && !f.requestVerifying
        && !f.requestFinished && !f.requestSucceeded
  | .sizePh, f, h, _ =>
      h && f.taskRunning && f.requestRunning && !f.requestVerifying
        && !f.requestFinished && !f.requestSucceeded
  | .chunkPh, f, h, _ =>
      h && f.taskRunning && f.requestRunning && !f.requestVerifying
        && !f.requestFinished && !f.requestSucceeded
  | .postPerform _ _, f, h, _ =>
      h && f.taskRunning && f.requestRunning && !f.requestVerifying
        && !f.requestFinished && !f.requestSucceeded
  | .finishPh p _, f, h, _ =>
      h && f.taskRunning && f.requestRunning && (f.requestVerifying == p)
        && !f.requestFinished && !f.requestSucceeded
  | .outcomePh p _ _, f, h, _ =>
      h && f.taskRunning && f.requestRunning && (f.requestVerifying == p)
        && !f.requestFinished && !f.requestSucceeded
  | .preSucceed p _ _, f, h, _ =>
      h && f.taskRunning && f.requestRunning && (f.requestVerifying == p)
        && !f.requestFinished && !f.requestSucceeded
  | .preCleanup p _ fo, f, h, _ =>
      h && f.taskRunning && f.requestRunning && (f.requestVerifying == p)
        && !f.requestFinished && (f.requestSucceeded == (p && fo))
  | .preFinishSet s, f, h, _ =>
      h && f.taskRunning && !f.requestRunning && !f.requestVerifying
        && !f.requestFinished && (f.requestSucceeded == s)

/-- The invariant as a predicate on full states. -/
def Inv (st : Ota) : Prop :=
  invB st.pc st.flags st.taskHandle st.abortCallArmed = true

theorem inv_init : Inv ota0 := by unfold Inv; decide

/-- Enumeration of the states `startTaskF` can produce. -/
theorem startTaskF_out {st st' : Ota} {env : ExtEnv} {r : Except String Unit}
    (h : startTaskF st env = (st', r)) :
    st' = st
  ∨ (st.taskHandle = false ∧ st' = { st with flags := Flags.allClear })
  ∨ (st.taskHandle = false ∧
      st' = { st with taskHandle := true
                      flags := { Flags.allClear with taskRunning := true }
                      pc := .parked }) := by
  unfold startTaskF at h
  by_cases h1 : st.taskHandle = true
  · rw [if_pos h1] at h
    exact Or.inl (congrArg Prod.fst h).symm
  · rw [if_neg h1] at h
    by_cases h2 : st.flags.taskRunning = true
    · rw [if_pos h2] at h
      exact Or.inl (congrArg Prod.fst h).symm
    · rw [if_neg h2] at h
      by_cases h3 : env.createOk = true
      · rw [if_neg (by simpa using h3)] at h
        exact Or.inr (Or.inr ⟨by simpa using h1, (congrArg Prod.fst h).symm⟩)
      · rw [if_pos (by simpa using h3)] at h
        exact Or.inr (Or.inl ⟨by simpa using h1, (congrArg Prod.fst h).symm⟩)

/-- Enumeration of the results of the lazy start, with the returned value. -/
theorem lazyStartF_out {st st1 : Ota} {env : ExtEnv} {r : Except String Unit}
    (h : lazyStartF st env = (st1, r)) :
    st1 = st
  ∨ (st.taskHandle = false
      ∧ r = .error ("failed creating ota task " ++ toString env.createErrCode)
      ∧ st1 = { st with flags := Flags.allClear })
  ∨ (st.taskHandle = false ∧ r = .ok ()
      ∧ st1 = { st with taskHandle := true
                        flags := { Flags.allClear with taskRunning := true }
                        pc := .parked }) := by
  unfold lazyStartF startTaskF at h
  by_cases h1 : st.taskHandle = true
  · rw [if_pos h1] at h
    exact Or.inl (congrArg Prod.fst h).symm
  · rw [if_neg h1, if_neg h1] at h
    by_cases h2 : st.flags.taskRunning = true
    · rw [if_pos h2] at h
      exact Or.inl (congrArg Prod.fst h).symm
    · rw [if_neg h2] at h
      by_cases h3 : env.createOk = true
      · rw [if_neg (by simpa using h3)] at h
        exact Or.inr (Or.inr ⟨by simpa using h1, (congrArg Prod.snd h).symm,
          (congrArg Prod.fst h).symm⟩)
      · rw [if_pos (by simpa using h3)] at h
        exact Or.inr (Or.inl ⟨by simpa using h1, (congrArg Prod.snd h).symm,
          (congrArg Prod.fst h).symm⟩)

/-- Enumeration of the states a non-halting `triggerChecksF` can produce. -/
theorem triggerChecksF_out {st1 st' : Ota} {env : ExtEnv} {u c : String}
    {g : Bool} {k cc : String} {r : Except String Unit}
    (h : triggerChecksF st1 env u c g k cc = some (st', r)) :
    st' = st1
  ∨ (st1.flags.taskRunning = true ∧ st1.flags.startRequest = false
      ∧ st1.flags.requestRunning = false ∧ st1.flags.requestFinished = false
      ∧ st1.flags.requestSucceeded = false
      ∧ st' = { st1 with url := u, certPem := c, useGlobalCa := g
                         clientKey := k, clientCert := cc
                         flags := { st1.flags with startRequest := true } }) := by
  unfold triggerChecksF at h
  split_ifs at h with h1 h2 h3 h4 h5 h6
  -- the `requestSucceeded` branch (`none = some _`) is discharged by
  -- `split_ifs` itself, leaving six goals
  · simp only [Option.some.injEq, Prod.mk.injEq] at h
    exact Or.inl h.1.symm
  · simp only [Option.some.injEq, Prod.mk.injEq] at h
    exact Or.inl h.1.symm
  · simp only [Option.some.injEq, Prod.mk.injEq] at h
    exact Or.inl h.1.symm
  · simp only [Option.some.injEq, Prod.mk.injEq] at h
    exact Or.inl h.1.symm
  · simp only [Option.some.injEq, Prod.mk.injEq] at h
    exact Or.inl h.1.symm
  · simp only [Option.some.injEq, Prod.mk.injEq] at h
    obtain ⟨hs, hr⟩ := Bool.or_eq_false_iff.mp (by simpa using h2)
    exact Or.inr ⟨by simpa using h1, hs, hr, by simpa using h3, by simpa using h4, h.1.symm⟩

/-- Enumeration of the states a non-halting `triggerF` can produce. -/
theorem triggerF_out {st st' : Ota} {env : ExtEnv} {u c : String} {g : Bool}
    {k cc : String} {r : Except String Unit}
    (h : triggerF st env u c g k cc = some (st', r)) :
    st' = st
  ∨ (st.taskHandle = false ∧ st' = { st with flags := Flags.allClear })
  ∨ (st.taskHandle = false ∧
      st' = { st with taskHandle := true
                      flags := { Flags.allClear with taskRunning := true }
                      pc := .parked })
  ∨ (st.taskHandle = false ∧
      st' = { st with taskHandle := true
                      flags := { Flags.allClear with taskRunning := true, startRequest := true }
                      pc := .parked, url := u, certPem := c, useGlobalCa := g
                      clientKey := k, clientCert := cc })
  ∨ (st.flags.taskRunning = true ∧ st.flags.startRequest = false
      ∧ st.flags.requestRunning = false ∧ st.flags.requestFinished = false
      ∧ st.flags.requestSucceeded = false
      ∧ st' = { st with url := u, certPem := c, useGlobalCa := g
                        clientKey := k, clientCert := cc
                        flags := { st.flags with startRequest := true } }) := by
  unfold triggerF at h
  rcases hL : lazyStartF st env with ⟨st1, r1⟩
  rw [hL] at h
  rcases r1 with e | u1
  · -- the lazy start failed: `trigger` forwards the error and the state
    simp only [Option.some.injEq, Prod.mk.injEq] at h
    rcases lazyStartF_out hL with h' | ⟨hh, _, h'⟩ | ⟨_, hre, _⟩
    · exact Or.inl (h.1.symm.trans h')
    · exact Or.inr (Or.inl ⟨hh, h.1.symm.trans h'⟩)
    · exact absurd hre (by simp)
  · rcases u1
    rcases lazyStartF_out hL with h' | ⟨_, hre, _⟩ | ⟨hh, _, h'⟩
    · subst h'
      rcases triggerChecksF_out h with h' | ⟨ht, hs, hr, hf, hsu, h'⟩
      · exact Or.inl h'
      · exact Or.inr (Or.inr (Or.inr (Or.inr ⟨ht, hs, hr, hf, hsu, h'⟩)))
    · exact absurd hre (by simp)
    · subst h'
      rcases triggerChecksF_out h with h' | ⟨_, _, _, _, _, h'⟩
      · exact Or.inr (Or.inr (Or.inl ⟨hh, h'⟩))
      · exact Or.inr (Or.inr (Or.inr (Or.inl ⟨hh, h'⟩)))

/-- Enumeration of the states a non-restarting `updateF` tick can produce. -/
theorem updateF_out {st st' : Ota} {now : Nat} (h : updateF st now = .cont st') :
    st' = st
  ∨ st' = { st with lastInfo := some now }
  ∨ st' = { st with finishedTs := some now }
  ∨ (st.flags.startRequest = false ∧ st.flags.requestRunning = false
      ∧ st.flags.requestFinished = true ∧ st.flags.requestSucceeded = false
      ∧ st' = { st with finishedTs := none
                        flags := { st.flags with requestFinished := false
                                                 requestSucceeded := false }
                        appDesc := none }) := by
  unfold updateF at h
  by_cases h1 : (st.flags.startRequest || st.flags.requestRunning) = true
  · rw [if_pos h1] at h
    by_cases h2 : (st.lastInfo.isNone || now - st.lastInfo.getD 0 ≥ 1000) = true
    · rw [if_pos h2] at h
      injection h with h
      exact Or.inr (Or.inl h.symm)
    · rw [if_neg h2] at h
      injection h with h
      exact Or.inl h.symm
  · rw [if_neg h1] at h
    by_cases h2 : st.flags.requestFinished = true
    · rw [if_pos h2] at h
      by_cases h3 : st.finishedTs.isSome = true
      · rw [if_pos h3] at h
        by_cases h4 : now - st.finishedTs.getD 0 > 5000
        · rw [if_pos h4] at h
          by_cases h5 : st.flags.requestSucceeded = true
          · rw [if_pos h5] at h
            exact absurd h (by simp)
          · rw [if_neg h5] at h
            injection h with h
            obtain ⟨hs, hr⟩ := Bool.or_eq_false_iff.mp (by simpa using h1)
            exact Or.inr (Or.inr (Or.inr ⟨hs, hr, h2, by simpa using h5, h.symm⟩))
        · rw [if_neg h4] at h
          injection h with h
          exact Or.inl h.symm
      · rw [if_neg h3] at h
        injection h with h
        exact Or.inr (Or.inr (Or.inl h.symm))
    · rw [if_neg h2] at h
      injection h with h
      exact Or.inl h.symm

/-- Characterization of a successful `abortF`. -/
theorem abortF_out {f f' : Flags} (h : abortF f = .ok f') :
    (f.startRequest || f.requestRunning) = true ∧ f.abortRequest = false
      ∧ f' = { f with abortRequest := true } := by
  unfold abortF at h
  split_ifs at h with h1 h2
  -- the two error branches are discharged by `split_ifs` itself
  injection h with h
  refine ⟨?_, by simpa using h2, h.symm⟩
  cases hb : (f.startRequest || f.requestRunning) with
  | false => rw [hb] at h1; exact absurd rfl h1
  | true => rfl

/-! Preservation of the inductive invariant by each controller-side flag
write, checked over the whole finite (position, flags) domain. -/

theorem invB_clearAll (pc : WorkerPc) (f : Flags) (ap : Bool)
    (h : invB pc f false ap = true) : invB pc Flags.allClear false ap = true := by
  cases pc <;> simp_all [invB, Flags.allClear]

theorem invB_setStart (pc : WorkerPc) (f : Flags) (hd ap : Bool)
    (h : invB pc f hd ap = true) (h1 : f.taskRunning = true)
    (h2 : f.requestRunning = false) (h3 : f.requestFinished = false)
    (h4 : f.requestSucceeded = false) :
    invB pc { f with startRequest := true } hd ap = true := by
  cases pc <;> simp_all [invB, Flags.allClear]

theorem invB_armAbort (pc : WorkerPc) (f : Flags) (hd ap : Bool)
    (h : invB pc f hd ap = true)
    (h1 : (f.startRequest || f.requestRunning) = true) :
    invB pc f hd true = true := by
  cases pc <;> simp_all [invB, Flags.allClear]

theorem invB_fireAbort (pc : WorkerPc) (f : Flags) (hd : Bool)
    (h : invB pc f hd true = true) :
    invB pc { f with abortRequest := true } hd false = true := by
  cases pc <;> simp_all [invB, Flags.allClear]

theorem invB_recycle (pc : WorkerPc) (f : Flags) (hd ap : Bool)
    (h : invB pc f hd ap = true) (h1 : f.requestFinished = true) :
    invB pc { f with requestFinished := false, requestSucceeded := false }
      hd ap = true := by
  cases pc <;> simp_all [invB, Flags.allClear]

theorem invB_setEnd (pc : WorkerPc) (f : Flags) (hd ap : Bool)
    (h : invB pc f hd ap = true) (h1 : f.taskRunning = true) :
    invB pc { f with endTaskBit := true } hd ap = true := by
  cases pc <;> simp_all [invB, Flags.allClear]

/-- Every atomic step preserves the inductive invariant. -/
theorem inv_step {s s' : Ota} (hi : Inv s) (hs : Step s s') : Inv s' := by
  cases hs with
  | wake hpc hsr => simp_all [Inv, invB]
  | asserts hpc h1 h2 h3 h4 h5 => simp_all [Inv, invB]
  | resetProgress hpc => simp_all [Inv, invB]
  | setRunning hpc => simp_all [Inv, invB]
  | beginOk hpc => simp_all [Inv, invB]
  | beginFail err ts hpc => simp_all [Inv, invB]
  | beginNull ts hpc => simp_all [Inv, invB]
  | describeStep res hpc => simp_all [Inv, invB]
  | sizeStep v hpc => simp_all [Inv, invB]
  | chunkSpin n hpc hab => simp_all [Inv, invB]
  | chunkAborted n hpc hab => simp_all [Inv, invB]
  | chunkTerminal ok hpc => simp_all [Inv, invB]
  | verifyStep p a hpc => simp_all [Inv, invB]
  | finishStep p a f hpc => simp_all [Inv, invB]
  | outcomeStep p a f perr ferr ts hpc => simp_all [Inv, invB]
  | succeedStep p a f hpc => simp_all [Inv, invB]
  | cleanupClearStep p a f hpc => simp_all [Inv, invB]
  | cleanupSetStep sc hpc => simp_all [Inv, invB]
  | ctlStartTask st' env r h =>
      rcases startTaskF_out h with rfl | ⟨hh, rfl⟩ | ⟨hh, rfl⟩
      · exact hi
      · show invB s.pc Flags.allClear s.taskHandle s.abortCallArmed = true
        rw [hh]
        exact invB_clearAll s.pc s.flags s.abortCallArmed (by rw [← hh]; exact hi)
      · show invB WorkerPc.parked { Flags.allClear with taskRunning := true }
          true s.abortCallArmed = true
        simp [invB, Flags.allClear]
  | ctlTrigger st' env u c g k cc r h =>
      rcases triggerF_out h with rfl | ⟨hh, rfl⟩ | ⟨hh, rfl⟩ | ⟨hh, rfl⟩ |
        ⟨ht, hst, hr, hf, hsu, rfl⟩
      · exact hi
      · show invB s.pc Flags.allClear s.taskHandle s.abortCallArmed = true
        rw [hh]
        exact invB_clearAll s.pc s.flags s.abortCallArmed (by rw [← hh]; exact hi)
      · show invB WorkerPc.parked { Flags.allClear with taskRunning := true }
          true s.abortCallArmed = true
        simp [invB, Flags.allClear]
      · show invB WorkerPc.parked
          { Flags.allClear with taskRunning := true, startRequest := true }
          true s.abortCallArmed = true
        simp [invB, Flags.allClear]
      · exact invB_setStart s.pc s.flags s.taskHandle s.abortCallArmed hi ht hr hf hsu
  | ctlAbortCheck h1 h2 h3 =>
      exact invB_armAbort s.pc s.flags s.taskHandle s.abortCallArmed hi h1
  | ctlAbortSet h =>
      exact invB_fireAbort s.pc s.flags s.taskHandle
        (by unfold Inv at hi; rw [h] at hi; exact hi)
  | ctlSetTotalSize v => exact hi
  | ctlUpdate st' now h =>
      rcases updateF_out h with rfl | rfl | rfl | ⟨hst, hr, hf, hsu, rfl⟩
      · exact hi
      · exact hi
      · exact hi
      · exact invB_recycle s.pc s.flags s.taskHandle s.abortCallArmed hi hf
  | ctlEndTask h1 h2 =>
      exact invB_setEnd s.pc s.flags s.taskHandle s.abortCallArmed hi h1

/-- Every reachable state satisfies the inductive invariant. -/
theorem reach_inv {s : Ota} (h : Reach s) : Inv s := by
  induction h with
  | init => exact inv_init
  | step _ hs ih => exact inv_step ih hs

/-! ### The flag invariant of the spec, and what actually holds -/

/-- At most one of `START_REQUEST`, `REQUEST_RUNNING`, `REQUEST_VERIFYING`. -/
def atMostOne3 (f : Flags) : Bool :=
  !(f.startRequest && f.requestRunning) && !(f.startRequest && f.requestVerifying)
    && !(f.requestRunning && f.requestVerifying)

/-- The flag invariant exactly as the spec states it: at most one of
{START_REQUEST, REQUEST_RUNNING, REQUEST_VERIFYING} is set while a job is in
flight; REQUEST_FINISHED is mutually exclusive with all three;
REQUEST_SUCCEEDED implies REQUEST_FINISHED; ABORT_REQUEST only while
START_REQUEST or REQUEST_RUNNING holds. -/
def claimC1inv (f : Flags) : Bool :=
  (!(f.startRequest || f.requestRunning || f.requestVerifying) || atMostOne3 f)
    && (!f.requestFinished
        || (!f.startRequest && !f.requestRunning && !f.requestVerifying))
    && (!f.requestSucceeded || f.requestFinished)
    && (!f.abortRequest || (f.startRequest || f.requestRunning))

/-- The worker's job-exit window: the scoped cleanup of lines 311-314 is
running (after the success bit may already be published at line 466, before
`REQUEST_FINISHED_BIT` is published at line 313). -/
def exitWindowPc : WorkerPc → Bool
  | .preCleanup _ _ _ => true
  | .preFinishSet _ => true
  | _ => false

/-- The amended flag invariant, which does hold in every reachable state.
No upper bound on `ABORT_REQUEST` appears: `abort()`'s guard read (line 197)
and its `setBits` (line 202) are separately atomic, so the worker's scoped
cleanup can interpose between them and the delayed write then leaves
`ABORT_REQUEST` set while the worker is parked with the job already finished
(see `sLateAbort`); the only surviving bound is that the bit, like every
other job bit, implies `TASK_RUNNING`. -/
def amendedC1 (st : Ota) : Prop :=
  (st.flags.requestVerifying = true → st.flags.requestRunning = true)
  ∧ (st.flags.requestFinished = true →
      st.flags.requestRunning = false ∧ st.flags.requestVerifying = false)
  ∧ (st.flags.requestSucceeded = true →
      st.flags.requestFinished = true ∨ exitWindowPc st.pc = true)
  ∧ ((st.flags.startRequest || st.flags.requestRunning || st.flags.requestVerifying
      || st.flags.requestFinished || st.flags.requestSucceeded
      || st.flags.abortRequest) = true →
      st.flags.taskRunning = true)

theorem inv_amended {st : Ota} (h : Inv st) : amendedC1 st := by
  obtain ⟨f, p1, p2, p3, p4, p5, p6, th, p7, p8, p9, p10, p11, pc, ap⟩ := st
  cases pc <;>
    simp_all [Inv, invB, amendedC1, exitWindowPc, Flags.allClear] <;>
    (intro hx; simp_all)

/-! ### A concrete execution

startTask; trigger("https://e/f.bin", ...); the worker wakes, runs a job
whose transfer succeeds; while the worker is in the finish phase
(`REQUEST_RUNNING_BIT` and `REQUEST_VERIFYING_BIT` both set) the controller's
`abort()` succeeds; the worker never looks at the bit again, finishes
successfully and publishes `REQUEST_SUCCEEDED`/`REQUEST_FINISHED`, the
cleanup silently clearing the pending abort. -/

/-- External collaborators all succeed. -/
def exEnv : ExtEnv :=
  { createOk := true, createErrCode := 0, urlOk := true, urlErr := "" }

/-- After `startTask()`: worker parked, `TASK_RUNNING_BIT` set. -/
def sParked : Ota :=
  { ota0 with taskHandle := true
              flags := { Flags.allClear with taskRunning := true }
              pc := .parked }

/-- After a successful `trigger`: parameters stored, `START_REQUEST_BIT` set. -/
def sTriggered : Ota :=
  { sParked with url := "https://e/f.bin"
                 flags := { sParked.flags with startRequest := true } }

/-- The worker consumed `START_REQUEST_BIT`. -/
def sWoken : Ota :=
  { sTriggered with flags := { sTriggered.flags with startRequest := false }
                    pc := .woken }

/-- The asserts of lines 299-305 passed. -/
def sChecked : Ota := { sWoken with pc := .preReset }

/-- Write `m_progress = 0` done. -/
def sReset : Ota := { sChecked with progress := 0, pc := .preRun }

/-- Bit `REQUEST_RUNNING_BIT` set. -/
def sRunning : Ota :=
  { sReset with flags := { sReset.flags with requestRunning := true }
                pc := .beginPh }

/-- Call `esp_https_ota_begin` succeeded with a valid handle. -/
def sBegun : Ota := { sRunning with pc := .describePh }

/-- Call `esp_https_ota_get_img_desc` failed, clearing the descriptor. -/
def sDescribed : Ota := { sBegun with appDesc := none, pc := .sizePh }

/-- Call `esp_https_ota_get_image_size` reported a non-positive size. -/
def sSized : Ota := { sDescribed with pc := .chunkPh }

/-- Call `esp_https_ota_perform` returned `ESP_OK` on its first call. -/
def sPerformed : Ota := { sSized with pc := .postPerform true false }

/-- Line 420 published `REQUEST_VERIFYING_BIT` while `REQUEST_RUNNING_BIT`
is still set: the worker is in its finish phase. -/
def sVerifying : Ota :=
  { sPerformed with
      flags := { sPerformed.flags with requestVerifying := true }
      pc := .finishPh true false }

/-- The controller's `abort()` passed its guard read (line 197) during the
finish phase (`REQUEST_RUNNING_BIT` set) and is committed to its `setBits`. -/
def sAbortArmed : Ota := { sVerifying with abortCallArmed := true }

/-- The controller's `abort()` completed its `setBits` (line 202)
immediately, with no interposed worker step: the call succeeded during the
finish phase. -/
def sVerifyAbort : Ota :=
  { sVerifying with flags := { sVerifying.flags with abortRequest := true } }

/-- Call `esp_https_ota_finish` returned `ESP_OK`. -/
def sFinished : Ota := { sVerifyAbort with pc := .outcomePh true false true }

/-- The outcome write cleared the message (success path, line 461). -/
def sOutcome : Ota := { sFinished with message := "", pc := .preSucceed true false true }

/-- Line 466 published `REQUEST_SUCCEEDED_BIT`. -/
def sSucceeded : Ota :=
  { sOutcome with flags := { sOutcome.flags with requestSucceeded := true }
                  pc := .preCleanup true false true }

/-- The cleanup's `clearBits` dropped `RUNNING`, `VERIFYING` and the pending
`ABORT_REQUEST`. -/
def sCleanedUp : Ota :=
  { sSucceeded with
      flags := { sSucceeded.flags with requestRunning := false
                                       requestVerifying := false
                                       abortRequest := false }
      pc := .preFinishSet true }

/-- The cleanup's `setBits` published `REQUEST_FINISHED_BIT`; the worker
parks again. -/
def sDone : Ota :=
  { sCleanedUp with flags := { sCleanedUp.flags with requestFinished := true }
                    pc := .parked }

theorem reach_sVerifying : Reach sVerifying :=
  Reach.step (Reach.step (Reach.step (Reach.step (Reach.step (Reach.step
    (Reach.step (Reach.step (Reach.step (Reach.step (Reach.step Reach.init
      (Step.ctlStartTask ota0 sParked exEnv (.ok ()) rfl))
      (Step.ctlTrigger sParked sTriggered exEnv "https://e/f.bin" "" false "" ""
        (.ok ()) rfl))
      (Step.wake sTriggered rfl rfl))
      (Step.asserts sWoken rfl rfl rfl rfl rfl rfl))
      (Step.resetProgress sChecked rfl))
      (Step.setRunning sReset rfl))
      (Step.beginOk sRunning rfl))
      (Step.describeStep sBegun none rfl))
      (Step.sizeStep sDescribed 0 rfl))
      (Step.chunkTerminal sSized true rfl))
      (Step.verifyStep sPerformed true false rfl)

theorem reach_sDone : Reach sDone :=
  Reach.step (Reach.step (Reach.step (Reach.step (Reach.step (Reach.step
    reach_sVerifying
    (Step.ctlAbortCheck sVerifying rfl rfl rfl))
    (Step.ctlAbortSet sAbortArmed rfl))
    (Step.finishStep sVerifyAbort true false true rfl))
    (Step.outcomeStep sFinished true false true "" "" 0 rfl))
    (Step.succeedStep sOutcome true false true rfl))
    (Step.cleanupClearStep sSucceeded true false true rfl)
    |>.step (Step.cleanupSetStep sCleanedUp true rfl)

/-! ### The delayed-abort race

Same prefix, but the worker's scoped cleanup interposes between `abort()`'s
guard read (line 197) and its `setBits` (line 202): the job finishes, the
cleanup clears `ABORT_REQUEST` (then still clear) and publishes `FINISHED`,
the worker parks — and only then does the delayed `setBits` land.
`ABORT_REQUEST` ends up set with no job in flight (`START_REQUEST` and
`REQUEST_RUNNING` both clear), persisting until it silently kills the next
job's transfer. -/

/-- The guard passed at `sVerifying`; then `esp_https_ota_finish` returned
`ESP_OK` before the delayed `setBits` landed. -/
def sRaceFinished : Ota := { sAbortArmed with pc := .outcomePh true false true }

/-- The outcome write cleared the message (success path, line 461). -/
def sRaceOutcome : Ota :=
  { sRaceFinished with message := "", pc := .preSucceed true false true }

/-- Line 466 published `REQUEST_SUCCEEDED_BIT`. -/
def sRaceSucceeded : Ota :=
  { sRaceOutcome with
      flags := { sRaceOutcome.flags with requestSucceeded := true }
      pc := .preCleanup true false true }

/-- The cleanup's `clearBits` (line 312) ran while `ABORT_REQUEST` was still
clear: the delayed abort write has not landed yet. -/
def sRaceCleaned : Ota :=
  { sRaceSucceeded with
      flags := { sRaceSucceeded.flags with requestRunning := false
                                           requestVerifying := false
                                           abortRequest := false }
      pc := .preFinishSet true }

/-- The cleanup's `setBits` published `REQUEST_FINISHED_BIT`; the worker
parked with the abort write still pending. -/
def sRaceParked : Ota :=
  { sRaceCleaned with
      flags := { sRaceCleaned.flags with requestFinished := true }
      pc := .parked }

/-- The delayed `setBits(ABORT_REQUEST_BIT)` finally landed: `ABORT_REQUEST`
is set while the worker is parked, the job is finished and neither
`START_REQUEST` nor `REQUEST_RUNNING` holds. -/
def sLateAbort : Ota :=
  { sRaceParked with
      flags := { sRaceParked.flags with abortRequest := true }
      abortCallArmed := false }

theorem reach_sLateAbort : Reach sLateAbort :=
  Reach.step (Reach.step (Reach.step (Reach.step (Reach.step (Reach.step
    (Reach.step reach_sVerifying
    (Step.ctlAbortCheck sVerifying rfl rfl rfl))
    (Step.finishStep sAbortArmed true false true rfl))
    (Step.outcomeStep sRaceFinished true false true "" "" 0 rfl))
    (Step.succeedStep sRaceOutcome true false true rfl))
    (Step.cleanupClearStep sRaceSucceeded true false true rfl))
    (Step.cleanupSetStep sRaceCleaned true rfl))
    (Step.ctlAbortSet sRaceParked rfl)

/-! ### Facts about the perform loop and the per-job run -/

/-- The perform loop never touches the success or finished bits, records the
fixed abort message exactly when it breaks on a pending abort, and leaves the
message alone otherwise. -/
theorem chunkLoopF_spec (l : List ChunkEv) (st : Ota) :
    (chunkLoopF l st).1.flags.requestSucceeded = st.flags.requestSucceeded
    ∧ (chunkLoopF l st).1.flags.requestFinished = st.flags.requestFinished
    ∧ ((chunkLoopF l st).2 = true → (chunkLoopF l st).1.message = abortedMsg)
    ∧ ((chunkLoopF l st).2 = false → (chunkLoopF l st).1.message = st.message) := by
  induction l generalizing st with
  | nil => simp [chunkLoopF]
  | cons ev rest ih =>
      by_cases hab : ev.abortArrives = true
      · by_cases hpend : st.flags.abortRequest = true
        · simp [chunkLoopF, hab, hpend]
        · simp only [chunkLoopF, hab, if_true]
          simp [Bool.false_eq_true, hpend]
      · by_cases hpend : st.flags.abortRequest = true
        · simp [chunkLoopF, hab, hpend]
        · simpa [chunkLoopF, hab, hpend] using
            ih { st with progress := ev.bytesRead }

/-- C2: every path out of a job runs the scoped cleanup exactly once, and on
leaving the job `REQUEST_RUNNING`, `REQUEST_VERIFYING` and `ABORT_REQUEST`
are cleared and `REQUEST_FINISHED` is set. -/
theorem c2_cleanup_every_path (st : Ota) (env : JobEnv) :
    (runJob st env).final.flags.requestFinished = true
    ∧ (runJob st env).final.flags.requestRunning = false
    ∧ (runJob st env).final.flags.requestVerifying = false
    ∧ (runJob st env).final.flags.abortRequest = false
    ∧ (runJob st env).cleanups = 1 := by
  unfold runJob
  split_ifs <;>
    simp [cleanupC, setFinishedF, cleanupClearF, setSucceededF, setVerifyingF,
      jobEntryF, setRunningF]

theorem failedMsg_ne_empty (fn err : String) (ms : Nat) :
    failedMsg fn err ms ≠ "" := by
  intro h
  have h2 := congrArg String.length h
  simp only [failedMsg, String.length_append] at h2
  rw [show ("() failed with " : String).length = 15 from rfl,
      show (" (at " : String).length = 5 from rfl,
      show (")" : String).length = 1 from rfl,
      show ("" : String).length = 0 from rfl] at h2
  omega

theorem handleInvalidMsg_ne_empty (ms : Nat) : handleInvalidMsg ms ≠ "" := by
  intro h
  have h2 := congrArg String.length h
  simp only [handleInvalidMsg, String.length_append] at h2
  rw [show ("ota handle invalid (at " : String).length = 23 from rfl,
      show (")" : String).length = 1 from rfl,
      show ("" : String).length = 0 from rfl] at h2
  omega

/-- C4: per-job outcome contract: the success bit is set iff the chunk loop
and the finish both succeeded; an observed abort yields the fixed message and
never success; otherwise the message is empty exactly on success and names
the failing step with a timestamp. -/
theorem c4_outcome_contract (st : Ota) (env : JobEnv)
    (hsu : st.flags.requestSucceeded = false) :
    (runJob st env).final.flags.requestSucceeded
        = ((runJob st env).performOk && (runJob st env).finishOk)
    ∧ ((runJob st env).aborted = true →
        (runJob st env).final.message = abortedMsg
        ∧ (runJob st env).final.flags.requestSucceeded = false)
    ∧ ((runJob st env).final.message = "" ↔
        (runJob st env).final.flags.requestSucceeded = true)
    ∧ ((runJob st env).aborted = false →
        (runJob st env).final.flags.requestSucceeded = false →
        (runJob st env).final.message
            = failedMsg "esp_https_ota_begin" env.beginErr env.beginTs
        ∨ (runJob st env).final.message = handleInvalidMsg env.handleTs
        ∨ (runJob st env).final.message
            = failedMsg "esp_https_ota_perform" env.performErr env.failTs
        ∨ (runJob st env).final.message
            = failedMsg "esp_https_ota_finish" env.finishErr env.failTs) := by
  obtain ⟨hsucc, hfin, habm, hnabm⟩ :=
    chunkLoopF_spec env.chunks (prePerformState st env)
  unfold runJob
  by_cases hb : env.beginOk = true
  · by_cases hh : env.handleValid = true
    · rcases hab : (chunkLoopF env.chunks (prePerformState st env)).2 with _ | _
      · -- not aborted
        by_cases hp : env.performOk = true
        · by_cases hf : env.finishOk = true
          · simp_all [cleanupC, setFinishedF, cleanupClearF, prePerformState,
              jobEntryF, setRunningF]
          · simp_all [cleanupC, setFinishedF, cleanupClearF, prePerformState,
              jobEntryF, setRunningF, failedMsg_ne_empty]
        · simp_all [cleanupC, setFinishedF, cleanupClearF, prePerformState,
            jobEntryF, setRunningF, failedMsg_ne_empty]
      · -- aborted
        simp_all [cleanupC, setFinishedF, cleanupClearF, prePerformState,
          jobEntryF, setRunningF, abortedMsg]
    · simp_all [cleanupC, setFinishedF, cleanupClearF, prePerformState,
        jobEntryF, setRunningF, handleInvalidMsg_ne_empty]
  · simp_all [cleanupC, setFinishedF, cleanupClearF, prePerformState,
      jobEntryF, setRunningF, failedMsg_ne_empty]

/-! ### The claims -/

/-- C1 (counterexample): the stated flag-set invariant fails on reachable
states twice over.  First, after a successful perform loop the worker
publishes `REQUEST_VERIFYING_BIT` (line 420) while `REQUEST_RUNNING_BIT` is
still set (it is only cleared by the scoped cleanup, line 312), so during the
whole finish phase two of the supposedly mutually exclusive bits are set.
Second, `abort()`'s guard read (line 197) and its `setBits` (line 202) are
separately atomic: the worker's cleanup can interpose, and the delayed write
then leaves `ABORT_REQUEST` set while the worker is parked and neither
`START_REQUEST` nor `REQUEST_RUNNING` holds, refuting the claimed bound on
`ABORT_REQUEST` as well. -/
theorem c1_flag_invariant_counterexample :
    (Reach sVerifying
     ∧ sVerifying.flags.requestRunning = true
     ∧ sVerifying.flags.requestVerifying = true
     ∧ claimC1inv sVerifying.flags = false)
    ∧ (Reach sLateAbort
       ∧ sLateAbort.pc = WorkerPc.parked
       ∧ sLateAbort.flags.abortRequest = true
       ∧ sLateAbort.flags.startRequest = false
       ∧ sLateAbort.flags.requestRunning = false
       ∧ claimC1inv sLateAbort.flags = false) :=
  ⟨⟨reach_sVerifying, by decide, by decide, by decide⟩,
   ⟨reach_sLateAbort, by decide, by decide, by decide, by decide, by decide⟩⟩

/-- C1 (amended): in every reachable state, `REQUEST_VERIFYING` is set only
while `REQUEST_RUNNING` is set (both through the finish phase);
`REQUEST_FINISHED` excludes both; `REQUEST_SUCCEEDED` implies
`REQUEST_FINISHED` except inside the worker's job-exit window between
publishing success (line 466) and publishing FINISHED (line 313); and any
job bit, `ABORT_REQUEST` included, implies `TASK_RUNNING`.  No stronger
bound on `ABORT_REQUEST` holds: per `sLateAbort` a delayed abort write can
leave the bit set with the worker parked and no job in flight. -/
theorem c1_flag_invariant_amended (s : Ota) (h : Reach s) : amendedC1 s :=
  inv_amended (reach_inv h)

theorem c1_flag_invariant_amended_witness : amendedC1 sDone :=
  c1_flag_invariant_amended sDone reach_sDone

set_option maxRecDepth 4000 in
/-- C3: `status()` is a pure function of one flag snapshot, and on every flag
combination it equals the claimed case ladder (Idle when the worker task is
not running or no job-state bit is set; else Verifying; else Updating when a
start is pending or a job runs; else the finished outcome disambiguated by
the success bit). -/
theorem c3_status_pure_mapping : ∀ f : Flags, statusF f = statusSpec f := by
  decide

/-- C6 (counterexample): `abort()` with no job in flight does fail, but the
error string is "no ota job is running!" (line 198), not the claimed
"no ota job is running". -/
theorem c6_abort_counterexample :
    (Flags.allClear.startRequest || Flags.allClear.requestRunning) = false
    ∧ abortF Flags.allClear = .error "no ota job is running!"
    ∧ abortF Flags.allClear ≠ .error "no ota job is running" := by decide

/-- C6 (amended): `abort()` succeeds iff a job is in flight (`START_REQUEST`
or `REQUEST_RUNNING` set) and no abort is pending, in which case it only sets
`ABORT_REQUEST`; with no job in flight it fails with
"no ota job is running!". -/
theorem c6_abort_contract (f : Flags) :
    ((∃ f', abortF f = .ok f') ↔
      ((f.startRequest || f.requestRunning) = true ∧ f.abortRequest = false))
    ∧ ((f.startRequest || f.requestRunning) = false →
        abortF f = .error "no ota job is running!")
    ∧ (∀ f', abortF f = .ok f' → f' = { f with abortRequest := true }) := by
  refine ⟨⟨fun ⟨f', hf'⟩ => ?_, fun ⟨h1, h2⟩ => ?_⟩, fun h0 => ?_,
    fun f' hf' => (abortF_out hf').2.2⟩
  · obtain ⟨ha, hb, _⟩ := abortF_out hf'
    exact ⟨ha, hb⟩
  · refine ⟨{ f with abortRequest := true }, ?_⟩
    unfold abortF
    rw [if_neg (by simp [h1]), if_neg (by simp [h2])]
  · unfold abortF
    rw [if_pos (by simp [h0])]

theorem c6_abort_contract_witness :
    abortF Flags.allClear = .error "no ota job is running!" :=
  (c6_abort_contract Flags.allClear).2.1 rfl

/-- The job-entry writes of espasyncota.cpp lines 307-309: the progress
counter is reset and `REQUEST_RUNNING_BIT` is set. -/
def jobStartF (st : Ota) : Ota := setRunningF (jobEntryF st)

/-- A state carrying a previous job's snapshot. -/
def staleState : Ota :=
  { ota0 with message := "previous failure", totalSize := some 7
              appDesc := some 3 }

/-- C8 (counterexample): at job entry only the progress counter is reset; a
previous job's message, total size and image descriptor survive into the new
job. -/
theorem c8_entry_reset_counterexample :
    (jobStartF staleState).progress = 0
    ∧ (jobStartF staleState).message = "previous failure"
    ∧ (jobStartF staleState).message ≠ ""
    ∧ (jobStartF staleState).totalSize = some 7
    ∧ (jobStartF staleState).appDesc = some 3 := by decide

/-- C8 (amended): when the Worker consumes `START_REQUEST` it resets only
the bytes-transferred counter before setting `REQUEST_RUNNING`; the message,
total size and image descriptor keep their previous values (the descriptor is
rewritten only by the describe phase, the total size only on a positive
reported size, the message only at job termination). -/
theorem c8_entry_resets_progress_only (st : Ota) :
    (jobStartF st).progress = 0
    ∧ (jobStartF st).totalSize = st.totalSize
    ∧ (jobStartF st).message = st.message
    ∧ (jobStartF st).appDesc = st.appDesc
    ∧ (jobStartF st).flags = { st.flags with requestRunning := true } := by
  simp [jobStartF, jobEntryF, setRunningF]

/-- C10: on the concrete execution of `reach_sDone`, `abort()` succeeds
during the finish phase (`REQUEST_RUNNING` still set after the chunk loop
exited), the Worker never reads the bit again, and the job terminates with
`REQUEST_SUCCEEDED` set while the scoped cleanup silently drops the pending
`ABORT_REQUEST`. -/
theorem c10_abort_unobserved_in_finish_phase :
    Reach sVerifying
    ∧ sVerifying.pc = WorkerPc.finishPh true false
    ∧ sVerifying.flags.requestRunning = true
    ∧ abortF sVerifying.flags = .ok sVerifyAbort.flags
    ∧ Reach sDone
    ∧ sDone.flags.requestSucceeded = true
    ∧ sDone.flags.requestFinished = true
    ∧ sDone.flags.abortRequest = false :=
  ⟨reach_sVerifying, by decide, by decide, by decide, reach_sDone,
    by decide, by decide, by decide⟩

/-- A transfer-engine environment in which every phase succeeds. -/
def cEnvOk : JobEnv :=
  { beginOk := true, beginErr := "", beginTs := 0, handleValid := true
    handleTs := 0, describeRes := some 1, sizeRes := 10
    chunks := [⟨4, false⟩], performOk := true, performErr := ""
    finishOk := true, finishErr := "", failTs := 0
    abortDuringFinish := false }

theorem c4_outcome_contract_witness :
    ota0.flags.requestSucceeded = false
    ∧ (runJob ota0 cEnvOk).final.message = "" :=
  ⟨by decide, (c4_outcome_contract ota0 cEnvOk (by decide)).2.2.1.mpr (by decide)⟩

/-- A controller state with a failed job awaiting recycling: terminal, not
succeeded, message recorded, settle timestamp taken at time 0. -/
def finishedFailedState : Ota :=
  { ota0 with taskHandle := true
              flags := { Flags.allClear with taskRunning := true
                                             requestFinished := true }
              message := "boom", finishedTs := some 0, pc := .parked }

/-- The state `update()` leaves behind when it recycles
`finishedFailedState`. -/
def recycledState : Ota :=
  { finishedFailedState with
      finishedTs := none
      flags := { finishedFailedState.flags with requestFinished := false
                                                requestSucceeded := false }
      appDesc := none }

/-- C7 (counterexample): the recycling tick clears the finished/succeeded
bits and the image descriptor, but `m_message` is not cleared (lines
244-268 never touch it), contradicting the claimed "message ... cleared". -/
theorem c7_settle_counterexample :
    updateF finishedFailedState 5001 = .cont recycledState
    ∧ recycledState.message = "boom"
    ∧ ("boom" : String) ≠ "" := by decide

/-- C7 (amended): while `REQUEST_FINISHED` is set `status()` reports the
terminal outcome; the first tick records the settle timestamp; ticks within
5 seconds (5000 ms) change nothing; the first later tick restarts the device
if the job succeeded, and otherwise clears FINISHED/SUCCEEDED and the image
descriptor — but not the message — returning `status()` to Idle. -/
theorem c7_settle_contract (st : Ota) (t0 now : Nat)
    (hTR : st.flags.taskRunning = true)
    (hFIN : st.flags.requestFinished = true)
    (hS : st.flags.startRequest = false)
    (hR : st.flags.requestRunning = false)
    (hV : st.flags.requestVerifying = false) :
    (statusF st.flags
      = if st.flags.requestSucceeded then UpdateStatus.Succeeded
        else UpdateStatus.Failed)
    ∧ (st.finishedTs = none →
        updateF st now = .cont { st with finishedTs := some now })
    ∧ (st.finishedTs = some t0 → now - t0 ≤ 5000 → updateF st now = .cont st)
    ∧ (st.finishedTs = some t0 → now - t0 > 5000 →
        st.flags.requestSucceeded = true → updateF st now = .restart)
    ∧ (st.finishedTs = some t0 → now - t0 > 5000 →
        st.flags.requestSucceeded = false →
        updateF st now = .cont
          { st with finishedTs := none
                    flags := { st.flags with requestFinished := false
                                             requestSucceeded := false }
                    appDesc := none }
        ∧ statusF { st.flags with requestFinished := false
                                  requestSucceeded := false } = .Idle
        ∧ ({ st with finishedTs := none
                     flags := { st.flags with requestFinished := false
                                              requestSucceeded := false }
                     appDesc := none } : Ota).message = st.message) := by
  refine ⟨?_, ?_, ?_, ?_, ?_⟩
  · simp [statusF, hTR, hV, hS, hR, hFIN]
  · intro hft
    simp [updateF, hS, hR, hFIN, hft]
  · intro hft hle
    have hn : ¬now - t0 > 5000 := by omega
    simp [updateF, hS, hR, hFIN, hft, hn]
  · intro hft hgt hsu
    simp [updateF, hS, hR, hFIN, hft, hgt, hsu]
  · intro hft hgt hsu
    refine ⟨by simp [updateF, hS, hR, hFIN, hft, hgt, hsu], ?_, rfl⟩
    simp [statusF, hTR, hV, hS, hR]

theorem c7_settle_contract_witness :
    finishedFailedState.flags.taskRunning = true
    ∧ finishedFailedState.flags.requestFinished = true
    ∧ statusF finishedFailedState.flags = UpdateStatus.Failed
    ∧ updateF finishedFailedState 4000 = .cont finishedFailedState :=
  ⟨by decide, by decide,
    by
      have h := (c7_settle_contract finishedFailedState 0 4000 (by decide)
        (by decide) (by decide) (by decide) (by decide)).1
      simpa using h,
    (c7_settle_contract finishedFailedState 0 4000 (by decide) (by decide)
      (by decide) (by decide) (by decide)).2.2.1 rfl (by decide)⟩

/-- C9 (counterexample): the public `setTotalSize` writes the snapshot's
total-size field, and the controller-side `update()` clears the worker-owned
`REQUEST_FINISHED`/`REQUEST_SUCCEEDED` bits, refuting both halves of the
claimed single-writer discipline. -/
theorem c9_frame_counterexample :
    (setTotalSizeF ota0 5).totalSize = some 5
    ∧ ota0.totalSize = none
    ∧ updateF finishedFailedState 5001 = .cont recycledState
    ∧ finishedFailedState.flags.requestFinished = true
    ∧ recycledState.flags.requestFinished = false := by decide

/-- C9 (amended): apart from `setTotalSize` (which writes the total size),
the controller operations do not write the Job Progress Snapshot except that
`update()` clears the cached image descriptor while recycling; `abort` and
`trigger` write only `ABORT_REQUEST` resp. `START_REQUEST` (plus the lazy
start's full reset), and `update()` is the only controller-side writer of
`REQUEST_FINISHED`/`REQUEST_SUCCEEDED`, which it can only clear, never set;
`REQUEST_RUNNING` and `REQUEST_VERIFYING` are never written by a controller
operation. -/
theorem c9_frame_contract :
    (∀ (st : Ota) (v : Int), setTotalSizeF st v = { st with totalSize := some v })
    ∧ (∀ (f f' : Flags), abortF f = .ok f' → f' = { f with abortRequest := true })
    ∧ (∀ (st : Ota) (env : ExtEnv) (u c : String) (g : Bool) (k cc : String)
        (st' : Ota) (r : Except String Unit), st.taskHandle = true →
        triggerF st env u c g k cc = some (st', r) →
        st'.progress = st.progress ∧ st'.totalSize = st.totalSize
          ∧ st'.message = st.message ∧ st'.appDesc = st.appDesc
          ∧ (st'.flags = st.flags
             ∨ st'.flags = { st.flags with startRequest := true }))
    ∧ (∀ (st : Ota) (now : Nat) (st' : Ota), updateF st now = .cont st' →
        st'.progress = st.progress ∧ st'.totalSize = st.totalSize
          ∧ st'.message = st.message
          ∧ st'.flags.requestRunning = st.flags.requestRunning
          ∧ st'.flags.requestVerifying = st.flags.requestVerifying
          ∧ (st'.flags = st.flags
             ∨ st'.flags = { st.flags with requestFinished := false
                                           requestSucceeded := false })) := by
  refine ⟨fun st v => rfl, fun f f' h => (abortF_out h).2.2, ?_, ?_⟩
  · intro st env u c g k cc st' r hth h
    rcases triggerF_out h with rfl | ⟨hh, _⟩ | ⟨hh, _⟩ | ⟨hh, _⟩ |
      ⟨_, _, _, _, _, rfl⟩
    · exact ⟨rfl, rfl, rfl, rfl, Or.inl rfl⟩
    · rw [hth] at hh; exact absurd hh (by simp)
    · rw [hth] at hh; exact absurd hh (by simp)
    · rw [hth] at hh; exact absurd hh (by simp)
    · exact ⟨rfl, rfl, rfl, rfl, Or.inr rfl⟩
  · intro st now st' h
    rcases updateF_out h with rfl | rfl | rfl | ⟨_, _, _, _, rfl⟩
    · exact ⟨rfl, rfl, rfl, rfl, rfl, Or.inl rfl⟩
    · exact ⟨rfl, rfl, rfl, rfl, rfl, Or.inl rfl⟩
    · exact ⟨rfl, rfl, rfl, rfl, rfl, Or.inl rfl⟩
    · exact ⟨rfl, rfl, rfl, rfl, rfl, Or.inr rfl⟩

theorem c9_frame_contract_witness :
    (setTotalSizeF ota0 5) = { ota0 with totalSize := some 5 } :=
  c9_frame_contract.1 ota0 5

/-- The controller state a successful lazy start produces: handle present,
flags reset with only `TASK_RUNNING_BIT` set, worker parked. -/
def startedOf (st : Ota) : Ota :=
  { st with taskHandle := true
            flags := { Flags.allClear with taskRunning := true }
            pc := .parked }

/-- Result of the post-lazy-start checks of `trigger`, provided the
`REQUEST_SUCCEEDED` assert cannot fire. -/
theorem triggerChecksF_result (st1 : Ota) (env : ExtEnv) (u c : String)
    (g : Bool) (k cc : String)
    (hsu : st1.flags.requestSucceeded = true → st1.flags.requestFinished = true) :
    ∃ (st' : Ota) (r : Except String Unit),
      triggerChecksF st1 env u c g k cc = some (st', r)
      ∧ ((∃ e, r = .error e) ↔
          (st1.flags.taskRunning = false
            ∨ (st1.flags.startRequest || st1.flags.requestRunning) = true
            ∨ st1.flags.requestFinished = true ∨ u = "" ∨ env.urlOk = false))
      ∧ (∀ e, r = .error e → st' = st1)
      ∧ (st1.flags.taskRunning = true → st1.flags.startRequest = false →
          st1.flags.requestRunning = false → st1.flags.requestFinished = false →
          u = "" → r = .error "empty firmware url") := by
  unfold triggerChecksF
  split_ifs with h1 h2 h3 h4 h5 h6
  · refine ⟨st1, _, rfl, ?_, fun e _ => rfl, fun ht _ _ _ _ => ?_⟩
    · exact iff_of_true ⟨_, rfl⟩ (Or.inl (by simpa using h1))
    · rw [ht] at h1
      exact absurd h1 (by decide)
  · refine ⟨st1, _, rfl, ?_, fun e _ => rfl, fun _ hs hr _ _ => ?_⟩
    · exact iff_of_true ⟨_, rfl⟩ (Or.inr (Or.inl h2))
    · rw [hs, hr] at h2
      exact absurd h2 (by decide)
  · refine ⟨st1, _, rfl, ?_, fun e _ => rfl, fun _ _ _ hf _ => ?_⟩
    · exact iff_of_true ⟨_, rfl⟩ (Or.inr (Or.inr (Or.inl h3)))
    · rw [hf] at h3
      exact absurd h3 (by decide)
  · exact absurd (hsu h4) h3
  · exact ⟨st1, _, rfl, iff_of_true ⟨_, rfl⟩ (Or.inr (Or.inr (Or.inr (Or.inl h5)))),
      fun e _ => rfl, fun _ _ _ _ _ => rfl⟩
  · exact ⟨st1, _, rfl,
      iff_of_true ⟨_, rfl⟩ (Or.inr (Or.inr (Or.inr (Or.inr (by simpa using h6))))),
      fun e _ => rfl, fun _ _ _ _ hu => absurd hu h5⟩
  · refine ⟨_, _, rfl, ?_, fun e he => absurd he (by simp),
      fun _ _ _ _ hu => absurd hu h5⟩
    refine iff_of_false ?_ ?_
    · rintro ⟨e, he⟩
      exact absurd he (by simp)
    · rintro (hc | hc | hc | hc | hc)
      · exact absurd hc (by simpa using h1)
      · exact absurd hc (by simpa using h2)
      · exact absurd hc (by simpa using h3)
      · exact absurd hc h5
      · exact absurd hc (by simpa using h6)

/-- Reduction of `triggerF` when the worker handle is already present. -/
theorem triggerF_withHandle {st : Ota} {env : ExtEnv} {u c : String} {g : Bool}
    {k cc : String} (hth : st.taskHandle = true) :
    triggerF st env u c g k cc = triggerChecksF st env u c g k cc := by
  unfold triggerF lazyStartF
  rw [if_pos hth]

/-- Reduction of `triggerF` when the lazy start fails to create the task. -/
theorem triggerF_createFail {st : Ota} {env : ExtEnv} {u c : String} {g : Bool}
    {k cc : String} (hth : st.taskHandle = false)
    (htr : st.flags.taskRunning = false) (hco : env.createOk = false) :
    triggerF st env u c g k cc
      = some ({ st with flags := Flags.allClear },
          .error ("failed creating ota task " ++ toString env.createErrCode)) := by
  unfold triggerF lazyStartF startTaskF
  rw [if_neg (by simp [hth]), if_neg (by simp [hth]), if_neg (by simp [htr]),
    if_pos (by simp [hco])]

/-- Reduction of `triggerF` when the lazy start spawns the worker. -/
theorem triggerF_lazyStarts {st : Ota} {env : ExtEnv} {u c : String} {g : Bool}
    {k cc : String} (hth : st.taskHandle = false)
    (htr : st.flags.taskRunning = false) (hco : env.createOk = true) :
    triggerF st env u c g k cc = triggerChecksF (startedOf st) env u c g k cc := by
  unfold triggerF lazyStartF startTaskF startedOf
  rw [if_neg (by simp [hth]), if_neg (by simp [hth]), if_neg (by simp [htr]),
    if_neg (by simp [hco])]

/-- C5 (counterexample): `trigger("")` on a freshly constructed controller
first performs the lazy start, so even though it fails with
"empty firmware url", the flags have changed: `TASK_RUNNING_BIT` is now
set. -/
theorem c5_trigger_counterexample :
    triggerF ota0 exEnv "" "" false "" ""
      = some (startedOf ota0, .error "empty firmware url")
    ∧ (startedOf ota0).flags ≠ ota0.flags
    ∧ ota0.flags.taskRunning = false
    ∧ (startedOf ota0).flags.taskRunning = true := by decide

/-- C5 (amended): under the reachable-state facts that a missing handle
means cleared flags and that an unacknowledged success implies FINISHED,
`trigger` returns (the assert cannot fire), fails exactly when — after the
lazy start attempt — the worker task is not running, a job is pending or
running, a previous terminal state is unacknowledged, the URL is empty, or
URL verification fails; on failure the job parameters and `START_REQUEST`
are unchanged (but the lazy start may have reset the flags and set
`TASK_RUNNING`); with the worker already running and idle, `trigger("")`
fails with "empty firmware url" leaving the state untouched. -/
theorem c5_trigger_contract (st : Ota) (env : ExtEnv) (u c : String) (g : Bool)
    (k cc : String)
    (hclean : st.taskHandle = false → st.flags = Flags.allClear)
    (hsu : st.flags.requestSucceeded = true → st.flags.requestFinished = true) :
    ∃ (st' : Ota) (r : Except String Unit),
      triggerF st env u c g k cc = some (st', r)
      ∧ ((∃ e, r = .error e) ↔
          ((lazyStartF st env).1.flags.taskRunning = false
            ∨ ((lazyStartF st env).1.flags.startRequest
                || (lazyStartF st env).1.flags.requestRunning) = true
            ∨ (lazyStartF st env).1.flags.requestFinished = true
            ∨ u = "" ∨ env.urlOk = false))
      ∧ (∀ e, r = .error e →
          st'.url = st.url ∧ st'.certPem = st.certPem
            ∧ st'.useGlobalCa = st.useGlobalCa ∧ st'.clientKey = st.clientKey
            ∧ st'.clientCert = st.clientCert
            ∧ st'.flags.startRequest = st.flags.startRequest)
      ∧ (st.taskHandle = true → st.flags.taskRunning = true →
          st.flags.startRequest = false → st.flags.requestRunning = false →
          st.flags.requestFinished = false → u = "" →
          r = .error "empty firmware url" ∧ st' = st) := by
  by_cases hth : st.taskHandle = true
  · have hL : lazyStartF st env = (st, .ok ()) := by
      unfold lazyStartF; rw [if_pos hth]
    obtain ⟨st', r, hEq, hiff, herr, hscn⟩ :=
      triggerChecksF_result st env u c g k cc hsu
    refine ⟨st', r, by rw [triggerF_withHandle hth]; exact hEq, by rw [hL]; exact hiff,
      fun e he => ?_, fun _ h2 h3 h4 h5 h6 => ?_⟩
    · rw [herr e he]
      exact ⟨rfl, rfl, rfl, rfl, rfl, rfl⟩
    · have hr := hscn h2 h3 h4 h5 h6
      exact ⟨hr, herr _ hr⟩
  · have hth' : st.taskHandle = false := by simpa using hth
    have hflags := hclean hth'
    have htr : st.flags.taskRunning = false := by rw [hflags]; rfl
    have hL : lazyStartF st env = startTaskF st env := by
      unfold lazyStartF; rw [if_neg (by simp [hth'])]
    by_cases hco : env.createOk = true
    · have hstarted : lazyStartF st env = (startedOf st, .ok ()) := by
        rw [hL]; unfold startTaskF startedOf
        rw [if_neg (by simp [hth']), if_neg (by simp [htr]),
          if_neg (by simp [hco])]
      obtain ⟨st', r, hEq, hiff, herr, hscn⟩ :=
        triggerChecksF_result (startedOf st) env u c g k cc
          (fun h => by simp [startedOf, Flags.allClear] at h)
      refine ⟨st', r, by rw [triggerF_lazyStarts hth' htr hco]; exact hEq,
        by rw [hstarted]; exact hiff, fun e he => ?_,
        fun h1 _ _ _ _ _ => absurd h1 (by simp [hth'])⟩
      rw [herr e he]
      exact ⟨rfl, rfl, rfl, rfl, rfl, by rw [hflags]; rfl⟩
    · have hco' : env.createOk = false := by simpa using hco
      have hLc : lazyStartF st env
          = ({ st with flags := Flags.allClear },
             .error ("failed creating ota task " ++ toString env.createErrCode)) := by
        rw [hL]; unfold startTaskF
        rw [if_neg (by simp [hth']), if_neg (by simp [htr]),
          if_pos (by simp [hco'])]
      refine ⟨{ st with flags := Flags.allClear }, _,
        triggerF_createFail hth' htr hco', ?_, fun e _ => ?_,
        fun h1 _ _ _ _ _ => absurd h1 (by simp [hth'])⟩
      · rw [hLc]
        refine iff_of_true ?_ (Or.inl rfl)
        exact ⟨"failed creating ota task " ++ toString env.createErrCode, rfl⟩
      · exact ⟨rfl, rfl, rfl, rfl, rfl, by rw [hflags]⟩

theorem c5_trigger_contract_witness :
    ota0.taskHandle = false ∧ ota0.flags = Flags.allClear
    ∧ ∃ (st' : Ota) (r : Except String Unit),
        triggerF ota0 exEnv "" "" false "" "" = some (st', r) ∧ ∃ e, r = .error e := by
  refine ⟨rfl, rfl, ?_⟩
  obtain ⟨st', r, hEq, hiff, -, -⟩ :=
    c5_trigger_contract ota0 exEnv "" "" false "" "" (fun _ => rfl)
      (fun h => by simp [ota0, Flags.allClear] at h)
  exact ⟨st', r, hEq, hiff.mpr (Or.inr (Or.inr (Or.inr (Or.inl rfl))))⟩

end EspAsyncOta
